import Mathlib

/-!
Shallow embedding of the SAM I2C slave interrupt driver
(src/asf/src/i2c_slave_interrupt.c).

The mutable C structure `struct i2c_slave_module` is modelled as an
explicit record threaded through the functions.  The caller buffer
pointer `module->buffer` is modelled as a cursor (a natural-number
address) together with a memory `mem : Nat -> Nat` holding the bytes
visible through that pointer; `*(module->buffer++) = data` becomes a
point update of `mem` at the cursor plus a cursor increment.

Hardware register reads that feed the handler (the INTFLAG bits, the
STATUS error / direction / RXNACK bits, and the incoming DATA byte)
are collected in an input record `HwInput`.  Hardware register writes
performed by the driver (callback invocation, DATA writes, ACKACT and
CTRLB command writes, INTENSET / INTENCLR writes) are recorded as an
ordered list of `HwAction` values, so that statements about which
callbacks fire, in which order, and which interrupt sources get
disabled can be made precisely.  User callbacks are treated as opaque
observers: firing one is recorded in the action trace and does not
mutate the module record.
-/

namespace I2cSlave

/-- Status codes of the driver, covering both the `status_code` values
returned by the job functions and the `module->status` field:
STATUS_OK, STATUS_BUSY, STATUS_ERR_IO, STATUS_ERR_OVERFLOW. -/
inductive I2cStatus where
  | ok
  | busy
  | errIo
  | errOverflow
deriving DecidableEq, Repr

/-- Transfer directions, from enum i2c_transfer_direction:
I2C_TRANSFER_WRITE (master writes to slave) and I2C_TRANSFER_READ
(master reads from slave). -/
inductive I2cTransferDirection where
  | write
  | read
deriving DecidableEq, Repr

/-- Callback kinds, from enum i2c_slave_callback: READ_REQUEST,
WRITE_REQUEST, READ_COMPLETE, WRITE_COMPLETE, ERROR,
ERROR_LAST_TRANSFER. -/
inductive I2cSlaveCallback where
  | readRequest
  | writeRequest
  | readComplete
  | writeComplete
  | err
  | errLastTransfer
deriving DecidableEq, Repr

/-- Modelled from the spec: the bit position of each callback kind in
the `registered_callback` / `enabled_callback` masks.  The enum header
declaring the numeric values of enum i2c_slave_callback is not part of
the sources; the spec only requires one distinct bit per kind, so the
positions below are a fixed injective numbering. -/
def cbBit : I2cSlaveCallback → Nat
  | .readRequest => 0
  | .writeRequest => 1
  | .readComplete => 2
  | .writeComplete => 3
  | .err => 4
  | .errLastTransfer => 5

/-- The software module state, from struct i2c_slave_module.  The C
pointer `buffer` is split into the cursor `buffer` (an address) and
the byte memory `mem` it points into. -/
structure i2c_slave_module where
  buffer : Nat
  mem : Nat → Nat
  buffer_remaining : Nat
  buffer_length : Nat
  status : I2cStatus
  transfer_direction : I2cTransferDirection
  nack_on_address : Bool
  registered_callback : Nat
  enabled_callback : Nat

/-- Hardware state read by one handler invocation: the three INTFLAG
bits (AMATCH, PREC, DRDY), the STATUS error bits (BUSERR, COLL or
LOWTOUT, collapsed into one flag), the STATUS DIR bit, the STATUS
RXNACK bit, and the incoming DATA register byte. -/
structure HwInput where
  intflag_amatch : Bool
  intflag_prec : Bool
  intflag_drdy : Bool
  status_err : Bool
  status_dir : Bool
  status_rxnack : Bool
  data : Nat
deriving DecidableEq, Repr

/-- Observable hardware effects and callback firings, in program
order.  `intenSet a d p` and `intenClr a d p` record an INTENSET or
INTENCLR write whose AMATCH, DRDY and PREC bits are `a`, `d`, `p`;
`cmd n` records a CTRLB CMD(n) write; `setAckact b` records an ACKACT
write (true = ACK); `readData` records a read of the DATA register;
`writeData b` records writing byte `b` to the DATA register;
`clearPrecFlag` records clearing the PREC interrupt flag; `fire k`
records invoking the user callback of kind `k`. -/
inductive HwAction where
  | fire (k : I2cSlaveCallback)
  | readData
  | writeData (b : Nat)
  | setAckact (ack : Bool)
  | cmd (n : Nat)
  | intenSet (amatch drdy prec : Bool)
  | intenClr (amatch drdy prec : Bool)
  | clearPrecFlag
deriving DecidableEq, Repr

/-- Packet descriptor, from struct i2c_slave_packet: `data` is the
address of the caller buffer, `data_length` the byte count. -/
structure i2c_slave_packet where
  data : Nat
  data_length : Nat
deriving DecidableEq, Repr

/-- The callbacks fired in an action trace, in order. -/
def cbTrace (l : List HwAction) : List I2cSlaveCallback :=
  l.filterMap fun a =>
    match a with
    | .fire k => some k
    | _ => none

/-- The bytes written to the DATA register in an action trace, in
order. -/
def dataWrites (l : List HwAction) : List Nat :=
  l.filterMap fun a =>
    match a with
    | .writeData b => some b
    | _ => none

/-- Function i2c_slave_enable_nack_on_address. -/
def i2c_slave_enable_nack_on_address (m : i2c_slave_module) : i2c_slave_module :=
  { m with nack_on_address := true }

/-- Function i2c_slave_disable_nack_on_address. -/
def i2c_slave_disable_nack_on_address (m : i2c_slave_module) : i2c_slave_module :=
  { m with nack_on_address := false }

/-- Function _i2c_slave_read: read one byte from the DATA register
into the buffer at the cursor, advance the cursor, decrement
buffer_remaining. -/
def _i2c_slave_read (data : Nat) (m : i2c_slave_module) :
    i2c_slave_module × List HwAction :=
  ({ m with
      mem := fun a => if a = m.buffer then data else m.mem a,
      buffer := m.buffer + 1,
      buffer_remaining := m.buffer_remaining - 1 },
   [.readData])

/-- Function _i2c_slave_write: write the buffer byte at the cursor to
the DATA register, advance the cursor, decrement buffer_remaining. -/
def _i2c_slave_write (m : i2c_slave_module) :
    i2c_slave_module × List HwAction :=
  ({ m with
      buffer := m.buffer + 1,
      buffer_remaining := m.buffer_remaining - 1 },
   [.writeData (m.mem m.buffer)])

/-- Function i2c_slave_read_packet_job: reject with STATUS_BUSY while
buffer_remaining > 0, otherwise install the packet, set status to
STATUS_BUSY, enable the AMATCH, DRDY and PREC interrupt sources and
return STATUS_OK. -/
def i2c_slave_read_packet_job (m : i2c_slave_module) (p : i2c_slave_packet) :
    i2c_slave_module × I2cStatus × List HwAction :=
  if 0 < m.buffer_remaining then
    (m, .busy, [])
  else
    ({ m with
        buffer := p.data,
        buffer_remaining := p.data_length,
        buffer_length := p.data_length,
        status := .busy },
     .ok, [.intenSet true true true])

/-- Function i2c_slave_write_packet_job: identical gating and state
update to i2c_slave_read_packet_job. -/
def i2c_slave_write_packet_job (m : i2c_slave_module) (p : i2c_slave_packet) :
    i2c_slave_module × I2cStatus × List HwAction :=
  if 0 < m.buffer_remaining then
    (m, .busy, [])
  else
    ({ m with
        buffer := p.data,
        buffer_remaining := p.data_length,
        buffer_length := p.data_length,
        status := .busy },
     .ok, [.intenSet true true true])

/-- Lines 277 to 296 of the handler: repeated-start completion of a
previous transfer, detected via buffer_length differing from
buffer_remaining, firing READ_COMPLETE after a Write-direction
transfer and WRITE_COMPLETE after a Read-direction transfer. -/
def amatchCompleted (mask : Nat) (m : i2c_slave_module) :
    i2c_slave_module × List HwAction :=
  if m.buffer_length ≠ m.buffer_remaining ∧
      m.transfer_direction = .write then
    ({ m with status := .ok, buffer_length := 0, buffer_remaining := 0 },
     if mask.testBit (cbBit .readComplete) then [.fire .readComplete] else [])
  else if m.buffer_length ≠ m.buffer_remaining ∧
      m.transfer_direction = .read then
    ({ m with status := .ok, buffer_length := 0, buffer_remaining := 0 },
     if mask.testBit (cbBit .writeComplete) then [.fire .writeComplete] else [])
  else
    (m, [])

/-- Lines 298 to 348 of the handler: the bus-error check, the
nack_on_address policy, the new-direction processing with the request
callbacks and the ACK/NACK decision, the CMD(3) commit and the re-arm
of ACKACT. -/
def amatchRest (mask : Nat) (hw : HwInput) (m : i2c_slave_module) :
    i2c_slave_module × List HwAction :=
  let e :=
    if hw.status_err then
      ({ m with status := I2cStatus.errIo },
       if mask.testBit (cbBit .errLastTransfer) then
         [HwAction.fire .errLastTransfer]
       else [])
    else (m, [])
  let m1 := e.1
  let d :=
    if m1.nack_on_address then
      (m1, [HwAction.setAckact false])
    else if hw.status_dir then
      ({ m1 with transfer_direction := I2cTransferDirection.read },
       (if mask.testBit (cbBit .readRequest) then
          [HwAction.fire .readRequest]
        else []) ++
       (if m1.buffer_length = 0 then [HwAction.setAckact false]
        else [HwAction.setAckact true]))
    else
      ({ m1 with transfer_direction := I2cTransferDirection.write },
       (if mask.testBit (cbBit .writeRequest) then
          [HwAction.fire .writeRequest]
        else []) ++
       (if m1.buffer_length = 0 then [HwAction.setAckact false]
        else [HwAction.setAckact true]))
  (d.1, e.2 ++ d.2 ++ [.cmd 3, .setAckact true])

/-- Lines 350 to 380 of the handler: the stop condition.  The PREC
flag is cleared, the PREC and DRDY sources are disabled, AMATCH is
also disabled when neither request callback is enabled, and unless the
status is already a terminal error the session is reset to OK with
counters zeroed and the matching completion callback fires. -/
def stopHandler (mask : Nat) (m : i2c_slave_module) :
    i2c_slave_module × List HwAction :=
  let t0 : List HwAction :=
    [.clearPrecFlag, .intenClr false true true] ++
    (if ¬ (m.enabled_callback.testBit (cbBit .readRequest) ∨
           m.enabled_callback.testBit (cbBit .writeRequest)) then
       [HwAction.intenClr true false false]
     else [])
  if ¬ (m.status = .errOverflow ∨ m.status = .errIo) then
    ({ m with status := .ok, buffer_length := 0, buffer_remaining := 0 },
     t0 ++
     (if mask.testBit (cbBit .readComplete) ∧
         m.transfer_direction = .write then
        [HwAction.fire .readComplete]
      else if mask.testBit (cbBit .writeComplete) ∧
          m.transfer_direction = .read then
        [HwAction.fire .writeComplete]
      else []))
  else
    (m, t0)

/-- Lines 381 to 425 of the handler: the data-ready byte boundary.
Early termination when the buffer is exhausted or the master NACKed
mid Read; otherwise one byte transfer in the active direction. -/
def drdyHandler (mask : Nat) (hw : HwInput) (m : i2c_slave_module) :
    i2c_slave_module × List HwAction :=
  if m.buffer_remaining = 0 ∨
      (m.transfer_direction = .read ∧
       m.buffer_remaining < m.buffer_length ∧
       hw.status_rxnack) then
    if m.transfer_direction = .write then
      ({ m with
          buffer_remaining := 0
          buffer_length := 0
          status := .errOverflow },
       [.setAckact false, .cmd 2] ++
       (if mask.testBit (cbBit .err) then [HwAction.fire .err] else []))
    else
      ({ m with
          buffer_remaining := 0
          buffer_length := 0
          status := .ok },
       [.setAckact false, .cmd 2, .intenClr false true false])
  else if 0 < m.buffer_length ∧ 0 < m.buffer_remaining then
    if m.transfer_direction = .write then
      _i2c_slave_read hw.data m
    else
      _i2c_slave_write m
  else
    (m, [])

/-- Function _i2c_slave_interrupt_handler: dispatch on the pending
INTFLAG bit, in the priority order AMATCH, then PREC, then DRDY, with
the callback mask computed once at entry as the conjunction of the
enabled and registered masks. -/
def _i2c_slave_interrupt_handler (m : i2c_slave_module) (hw : HwInput) :
    i2c_slave_module × List HwAction :=
  let mask := m.enabled_callback &&& m.registered_callback
  if hw.intflag_amatch then
    let c := amatchCompleted mask m
    let r := amatchRest mask hw c.1
    (r.1, c.2 ++ r.2)
  else if hw.intflag_prec then
    stopHandler mask m
  else if hw.intflag_drdy then
    drdyHandler mask hw m
  else
    (m, [])

/-- One operation on a session: a job submission from the control API
or one hardware interrupt. -/
inductive Op where
  | submitRead (p : i2c_slave_packet)
  | submitWrite (p : i2c_slave_packet)
  | irq (hw : HwInput)

/-- One step: apply an operation, keeping the resulting state and the
emitted actions. -/
def stepOp (m : i2c_slave_module) : Op → i2c_slave_module × List HwAction
  | .submitRead p =>
    let r := i2c_slave_read_packet_job m p
    (r.1, r.2.2)
  | .submitWrite p =>
    let r := i2c_slave_write_packet_job m p
    (r.1, r.2.2)
  | .irq hw => _i2c_slave_interrupt_handler m hw

/-- Run a list of operations from a state, concatenating the emitted
actions in order. -/
def runOps (m : i2c_slave_module) : List Op → i2c_slave_module × List HwAction
  | [] => (m, [])
  | op :: rest =>
    let s := stepOp m op
    let r := runOps s.1 rest
    (r.1, s.2 ++ r.2)

/-- Data-ready hardware input carrying one incoming byte, no pending
AMATCH or PREC flag, no RXNACK. -/
def mkDrdy (b : Nat) : HwInput :=
  ⟨false, false, true, false, false, false, b⟩

/-- Stop-condition hardware input. -/
def mkStop : HwInput :=
  ⟨false, true, false, false, false, false, 0⟩

/-- Address-match hardware input with the given DIR bit and no error
flags. -/
def mkAmatch (dir : Bool) : HwInput :=
  ⟨true, false, false, false, dir, false, 0⟩

/-- Run a sequence of data-ready events delivering the given incoming
bytes, keeping only the state. -/
def drdyRun (m : i2c_slave_module) : List Nat → i2c_slave_module
  | [] => m
  | b :: bs => drdyRun (_i2c_slave_interrupt_handler m (mkDrdy b)).1 bs

/-- Demo module with every callback registered and enabled (all six
mask bits set) and an idle session. -/
def mAllOn : i2c_slave_module :=
  { buffer := 0, mem := fun _ => 0, buffer_remaining := 0,
    buffer_length := 0, status := .ok, transfer_direction := .write,
    nack_on_address := false, registered_callback := 63,
    enabled_callback := 63 }

@[simp] theorem cbTrace_nil : cbTrace [] = [] := rfl

@[simp] theorem cbTrace_fire_cons (k : I2cSlaveCallback) (l : List HwAction) :
    cbTrace (HwAction.fire k :: l) = k :: cbTrace l := rfl

@[simp] theorem cbTrace_readData_cons (l : List HwAction) :
    cbTrace (HwAction.readData :: l) = cbTrace l := rfl

@[simp] theorem cbTrace_writeData_cons (b : Nat) (l : List HwAction) :
    cbTrace (HwAction.writeData b :: l) = cbTrace l := rfl

@[simp] theorem cbTrace_setAckact_cons (a : Bool) (l : List HwAction) :
    cbTrace (HwAction.setAckact a :: l) = cbTrace l := rfl

@[simp] theorem cbTrace_cmd_cons (n : Nat) (l : List HwAction) :
    cbTrace (HwAction.cmd n :: l) = cbTrace l := rfl

@[simp] theorem cbTrace_intenSet_cons (a d p : Bool) (l : List HwAction) :
    cbTrace (HwAction.intenSet a d p :: l) = cbTrace l := rfl

@[simp] theorem cbTrace_intenClr_cons (a d p : Bool) (l : List HwAction) :
    cbTrace (HwAction.intenClr a d p :: l) = cbTrace l := rfl

@[simp] theorem cbTrace_clearPrecFlag_cons (l : List HwAction) :
    cbTrace (HwAction.clearPrecFlag :: l) = cbTrace l := rfl

@[simp] theorem cbTrace_append (l1 l2 : List HwAction) :
    cbTrace (l1 ++ l2) = cbTrace l1 ++ cbTrace l2 :=
  List.filterMap_append l1 l2 _

@[simp] theorem cbTrace_ite (c : Prop) [Decidable c] (a b : List HwAction) :
    cbTrace (if c then a else b) = if c then cbTrace a else cbTrace b := by
  split <;> rfl

/-- C1: a job submission is accepted iff buffer_remaining is zero at
call time; a rejected submission returns Busy and leaves the whole
module state unchanged; an accepted submission installs the packet
into buffer / buffer_remaining / buffer_length, sets status to Busy,
arms the three interrupt sources and returns OK.  Both
i2c_slave_read_packet_job and i2c_slave_write_packet_job behave this
way. -/
theorem c1_packet_job_gating (m : i2c_slave_module) (p : i2c_slave_packet) :
    (0 < m.buffer_remaining →
      i2c_slave_read_packet_job m p = (m, .busy, []) ∧
      i2c_slave_write_packet_job m p = (m, .busy, [])) ∧
    (m.buffer_remaining = 0 →
      i2c_slave_read_packet_job m p =
        ({ m with
            buffer := p.data
            buffer_remaining := p.data_length
            buffer_length := p.data_length
            status := .busy },
         .ok, [.intenSet true true true]) ∧
      i2c_slave_write_packet_job m p =
        ({ m with
            buffer := p.data
            buffer_remaining := p.data_length
            buffer_length := p.data_length
            status := .busy },
         .ok, [.intenSet true true true])) := by
  constructor
  · intro h
    simp [i2c_slave_read_packet_job, i2c_slave_write_packet_job, h]
  · intro h
    simp [i2c_slave_read_packet_job, i2c_slave_write_packet_job, h]

/-- Witness for c1_packet_job_gating: a session with one byte
remaining rejects a submission unchanged, an idle session accepts
it. -/
theorem c1_packet_job_gating_witness :
    0 < ({ mAllOn with buffer_remaining := 1 } :
        i2c_slave_module).buffer_remaining ∧
    i2c_slave_read_packet_job { mAllOn with buffer_remaining := 1 } ⟨100, 2⟩ =
      ({ mAllOn with buffer_remaining := 1 }, .busy, []) ∧
    mAllOn.buffer_remaining = 0 ∧
    i2c_slave_read_packet_job mAllOn ⟨100, 2⟩ =
      ({ mAllOn with
          buffer := (100 : Nat)
          buffer_remaining := (2 : Nat)
          buffer_length := (2 : Nat)
          status := .busy },
       .ok, [.intenSet true true true]) :=
  ⟨by decide,
   ((c1_packet_job_gating { mAllOn with buffer_remaining := 1 } ⟨100, 2⟩).1
     (by decide)).1,
   by decide,
   ((c1_packet_job_gating mAllOn ⟨100, 2⟩).2 (by decide)).1⟩

/-- C2: a stop-condition event, entered with a status that is neither
ErrorOverflow nor ErrorIo, resets status to OK, zeroes buffer_length
and buffer_remaining, and fires exactly the completion callback
matching the recorded direction (READ_COMPLETE after Write,
WRITE_COMPLETE after Read), gated by the conjunction of the enabled
and registered masks. -/
theorem c2_stop_reset_and_completion (m : i2c_slave_module) (hw : HwInput)
    (ha : hw.intflag_amatch = false) (hp : hw.intflag_prec = true)
    (hs : ¬ (m.status = .errOverflow ∨ m.status = .errIo)) :
    (_i2c_slave_interrupt_handler m hw).1.status = .ok ∧
    (_i2c_slave_interrupt_handler m hw).1.buffer_length = 0 ∧
    (_i2c_slave_interrupt_handler m hw).1.buffer_remaining = 0 ∧
    cbTrace (_i2c_slave_interrupt_handler m hw).2 =
      (if (m.enabled_callback &&& m.registered_callback).testBit
            (cbBit .readComplete) ∧ m.transfer_direction = .write then
         [I2cSlaveCallback.readComplete]
       else if (m.enabled_callback &&& m.registered_callback).testBit
            (cbBit .writeComplete) ∧ m.transfer_direction = .read then
         [I2cSlaveCallback.writeComplete]
       else []) := by
  simp [_i2c_slave_interrupt_handler, stopHandler, ha, hp, hs]

/-- Demo module mid-transfer: Busy, Write direction, two bytes
remaining out of two, every callback enabled. -/
def mBusyWrite : i2c_slave_module :=
  { mAllOn with status := .busy, buffer_remaining := 2, buffer_length := 2 }

/-- Witness for c2_stop_reset_and_completion at a Busy Write-direction
session with every callback enabled. -/
theorem c2_stop_reset_and_completion_witness :
    (mkStop.intflag_amatch = false ∧ mkStop.intflag_prec = true ∧
      ¬ (mBusyWrite.status = .errOverflow ∨ mBusyWrite.status = .errIo)) ∧
    ((_i2c_slave_interrupt_handler mBusyWrite mkStop).1.status = .ok ∧
     (_i2c_slave_interrupt_handler mBusyWrite mkStop).1.buffer_length = 0 ∧
     (_i2c_slave_interrupt_handler mBusyWrite mkStop).1.buffer_remaining = 0 ∧
     cbTrace (_i2c_slave_interrupt_handler mBusyWrite mkStop).2 =
      (if (mBusyWrite.enabled_callback &&&
            mBusyWrite.registered_callback).testBit
            (cbBit .readComplete) ∧
          mBusyWrite.transfer_direction = .write then
         [I2cSlaveCallback.readComplete]
       else if (mBusyWrite.enabled_callback &&&
            mBusyWrite.registered_callback).testBit
            (cbBit .writeComplete) ∧
          mBusyWrite.transfer_direction = .read then
         [I2cSlaveCallback.writeComplete]
       else [])) :=
  ⟨⟨rfl, rfl, by decide⟩,
   c2_stop_reset_and_completion mBusyWrite mkStop rfl rfl (by decide)⟩

/-- C6: a stop-condition event entered with status ErrorOverflow or
ErrorIo leaves the whole module state unchanged and fires no
callback. -/
theorem c6_stop_error_frame (m : i2c_slave_module) (hw : HwInput)
    (ha : hw.intflag_amatch = false) (hp : hw.intflag_prec = true)
    (hs : m.status = .errOverflow ∨ m.status = .errIo) :
    (_i2c_slave_interrupt_handler m hw).1 = m ∧
    cbTrace (_i2c_slave_interrupt_handler m hw).2 = [] := by
  simp [_i2c_slave_interrupt_handler, stopHandler, ha, hp, hs]

/-- Witness for c6_stop_error_frame at an overflowed session. -/
theorem c6_stop_error_frame_witness :
    (mkStop.intflag_amatch = false ∧ mkStop.intflag_prec = true ∧
      (({ mAllOn with status := .errOverflow } :
          i2c_slave_module).status = .errOverflow ∨
       ({ mAllOn with status := .errOverflow } :
          i2c_slave_module).status = .errIo)) ∧
    (_i2c_slave_interrupt_handler
        { mAllOn with status := .errOverflow } mkStop).1 =
      { mAllOn with status := .errOverflow } ∧
    cbTrace (_i2c_slave_interrupt_handler
        { mAllOn with status := .errOverflow } mkStop).2 = [] :=
  ⟨⟨rfl, rfl, Or.inl rfl⟩,
   (c6_stop_error_frame { mAllOn with status := .errOverflow } mkStop
      rfl rfl (Or.inl rfl)).1,
   (c6_stop_error_frame { mAllOn with status := .errOverflow } mkStop
      rfl rfl (Or.inl rfl)).2⟩

/-- C9: with direction Write, the repeated-start completion branch of
the address-match handler executes iff buffer_length differs from
buffer_remaining: it resets status to OK, zeroes both counters and
fires READ_COMPLETE when the callback mask allows it, and does nothing
when the two counters are equal (in particular in the never-armed
state where both are zero). -/
theorem c9_repeated_start_condition (mask : Nat) (m : i2c_slave_module)
    (hdir : m.transfer_direction = .write) :
    (m.buffer_length ≠ m.buffer_remaining →
      amatchCompleted mask m =
        ({ m with status := .ok, buffer_length := 0, buffer_remaining := 0 },
         if mask.testBit (cbBit .readComplete) then
           [HwAction.fire .readComplete]
         else [])) ∧
    (m.buffer_length = m.buffer_remaining →
      amatchCompleted mask m = (m, [])) := by
  constructor
  · intro h
    simp [amatchCompleted, h, hdir]
  · intro h
    simp [amatchCompleted, h]

/-- Witness for c9_repeated_start_condition: the branch executes in an
exactly-exhausted Write session (buffer_length five, buffer_remaining
zero) and does not execute in a never-armed session (both zero). -/
theorem c9_repeated_start_condition_witness :
    (({ mAllOn with buffer_length := 5 } :
        i2c_slave_module).transfer_direction = .write ∧
     ({ mAllOn with buffer_length := 5 } :
        i2c_slave_module).buffer_length ≠
       ({ mAllOn with buffer_length := 5 } :
        i2c_slave_module).buffer_remaining ∧
     amatchCompleted 63 { mAllOn with buffer_length := 5 } =
       ({ { mAllOn with buffer_length := 5 } with
           status := .ok, buffer_length := 0, buffer_remaining := 0 },
        if Nat.testBit 63 (cbBit .readComplete) then
          [HwAction.fire .readComplete]
        else [])) ∧
    (mAllOn.buffer_length = mAllOn.buffer_remaining ∧
     amatchCompleted 63 mAllOn = (mAllOn, [])) :=
  ⟨⟨rfl, by decide,
    (c9_repeated_start_condition 63 { mAllOn with buffer_length := 5 }
       rfl).1 (by decide)⟩,
   ⟨rfl, (c9_repeated_start_condition 63 mAllOn rfl).2 rfl⟩⟩

/-- The address-match tail (error check, NACK policy, new-direction
processing) never fires READ_COMPLETE: its only callbacks are
ERROR_LAST_TRANSFER, READ_REQUEST and WRITE_REQUEST. -/
theorem amatchRest_no_readComplete (mask : Nat) (hw : HwInput)
    (m : i2c_slave_module) :
    I2cSlaveCallback.readComplete ∉ cbTrace (amatchRest mask hw m).2 := by
  simp only [amatchRest]
  split_ifs <;> simp

/-- C4: a data-ready event with direction Write and an exhausted
buffer zeroes both counters, sets status to ErrorOverflow, fires ERROR
exactly once when its bit is set in both masks, and never reads the
incoming DATA byte: the memory, the cursor and the DATA register are
untouched. -/
theorem c4_drdy_write_overflow (m : i2c_slave_module) (hw : HwInput)
    (ha : hw.intflag_amatch = false) (hp : hw.intflag_prec = false)
    (hd : hw.intflag_drdy = true)
    (hdir : m.transfer_direction = .write)
    (hrem : m.buffer_remaining = 0) :
    (_i2c_slave_interrupt_handler m hw).1.buffer_remaining = 0 ∧
    (_i2c_slave_interrupt_handler m hw).1.buffer_length = 0 ∧
    (_i2c_slave_interrupt_handler m hw).1.status = .errOverflow ∧
    cbTrace (_i2c_slave_interrupt_handler m hw).2 =
      (if (m.enabled_callback &&& m.registered_callback).testBit (cbBit .err)
       then [I2cSlaveCallback.err] else []) ∧
    (_i2c_slave_interrupt_handler m hw).1.mem = m.mem ∧
    (_i2c_slave_interrupt_handler m hw).1.buffer = m.buffer ∧
    HwAction.readData ∉ (_i2c_slave_interrupt_handler m hw).2 := by
  simp [_i2c_slave_interrupt_handler, drdyHandler, ha, hp, hd, hdir, hrem]

/-- Witness for c4_drdy_write_overflow at an exhausted Write-direction
session with every callback enabled. -/
theorem c4_drdy_write_overflow_witness :
    (({ mAllOn with status := .busy } :
        i2c_slave_module).transfer_direction = .write ∧
     ({ mAllOn with status := .busy } :
        i2c_slave_module).buffer_remaining = 0) ∧
    (_i2c_slave_interrupt_handler { mAllOn with status := .busy }
        (mkDrdy 42)).1.status = .errOverflow ∧
    cbTrace (_i2c_slave_interrupt_handler { mAllOn with status := .busy }
        (mkDrdy 42)).2 =
      (if (({ mAllOn with status := .busy } :
            i2c_slave_module).enabled_callback &&&
           ({ mAllOn with status := .busy } :
            i2c_slave_module).registered_callback).testBit (cbBit .err)
       then [I2cSlaveCallback.err] else []) ∧
    HwAction.readData ∉
      (_i2c_slave_interrupt_handler { mAllOn with status := .busy }
        (mkDrdy 42)).2 :=
  ⟨⟨rfl, rfl⟩,
   (c4_drdy_write_overflow { mAllOn with status := .busy } (mkDrdy 42)
      rfl rfl rfl rfl rfl).2.2.1,
   (c4_drdy_write_overflow { mAllOn with status := .busy } (mkDrdy 42)
      rfl rfl rfl rfl rfl).2.2.2.1,
   (c4_drdy_write_overflow { mAllOn with status := .busy } (mkDrdy 42)
      rfl rfl rfl rfl rfl).2.2.2.2.2.2⟩

/-- The session after the repeated-start completion branch: status
reset to OK, both job counters zeroed, everything else unchanged. -/
def sessionReset (m : i2c_slave_module) : i2c_slave_module :=
  { m with status := .ok, buffer_length := 0, buffer_remaining := 0 }

/-- C5: on an address match with a partially consumed Write job
(buffer_length different from buffer_remaining, direction Write), the
handler first runs the repeated-start completion — firing
READ_COMPLETE when its bit is set in both masks — and only then the
bus-error check, the NACK policy and the new-direction processing, on
the already-reset session (status OK, both counters zero); over the
whole invocation READ_COMPLETE fires exactly once when enabled and
registered, and never otherwise. -/
theorem c5_amatch_repeated_start_priority (m : i2c_slave_module)
    (hw : HwInput) (ha : hw.intflag_amatch = true)
    (hne : m.buffer_length ≠ m.buffer_remaining)
    (hdir : m.transfer_direction = .write) :
    _i2c_slave_interrupt_handler m hw =
      ((amatchRest (m.enabled_callback &&& m.registered_callback) hw
          (sessionReset m)).1,
       (if (m.enabled_callback &&& m.registered_callback).testBit
            (cbBit .readComplete) then [HwAction.fire .readComplete]
        else []) ++
       (amatchRest (m.enabled_callback &&& m.registered_callback) hw
          (sessionReset m)).2) ∧
    (cbTrace (_i2c_slave_interrupt_handler m hw).2).count
        I2cSlaveCallback.readComplete =
      (if (m.enabled_callback &&& m.registered_callback).testBit
          (cbBit .readComplete) then 1 else 0) := by
  have h1 : _i2c_slave_interrupt_handler m hw =
      ((amatchRest (m.enabled_callback &&& m.registered_callback) hw
          (sessionReset m)).1,
       (if (m.enabled_callback &&& m.registered_callback).testBit
            (cbBit .readComplete) then [HwAction.fire .readComplete]
        else []) ++
       (amatchRest (m.enabled_callback &&& m.registered_callback) hw
          (sessionReset m)).2) := by
    simp [_i2c_slave_interrupt_handler, amatchCompleted, sessionReset,
      ha, hne, hdir]
  refine ⟨h1, ?_⟩
  rw [h1]
  have h2 := amatchRest_no_readComplete
    (m.enabled_callback &&& m.registered_callback) hw (sessionReset m)
  simp [List.count_append, List.count_eq_zero.mpr h2]
  split <;> simp

/-- Demo module with a partially consumed Write job: three bytes
total, one remaining, Busy, every callback enabled. -/
def mPartialWrite : i2c_slave_module :=
  { mAllOn with status := .busy, buffer_remaining := 1, buffer_length := 3 }

/-- Witness for c5_amatch_repeated_start_priority at a partially
consumed Write-direction session. -/
theorem c5_amatch_repeated_start_priority_witness :
    ((mkAmatch false).intflag_amatch = true ∧
     mPartialWrite.buffer_length ≠ mPartialWrite.buffer_remaining ∧
     mPartialWrite.transfer_direction = .write) ∧
    (cbTrace (_i2c_slave_interrupt_handler mPartialWrite
        (mkAmatch false)).2).count I2cSlaveCallback.readComplete =
      (if (mPartialWrite.enabled_callback &&&
            mPartialWrite.registered_callback).testBit
          (cbBit .readComplete) then 1 else 0) :=
  ⟨⟨rfl, by decide, rfl⟩,
   (c5_amatch_repeated_start_priority mPartialWrite (mkAmatch false)
      rfl (by decide) rfl).2⟩

/-- C10: in the data-ready early-termination path the two direction
arms treat the DRDY interrupt source differently: the Read arm writes
DRDY to INTENCLR, the Write (overflow) arm performs no INTENCLR write
at all, so the DRDY source stays enabled; consequently the state left
by a Write-direction overflow (counters zero, direction Write, status
ErrorOverflow) makes every further data-ready event re-enter the
overflow branch and fire ERROR again. -/
theorem c10_drdy_intenclr_asymmetry (m : i2c_slave_module) (hw : HwInput)
    (ha : hw.intflag_amatch = false) (hp : hw.intflag_prec = false)
    (hd : hw.intflag_drdy = true) :
    (m.transfer_direction = .read →
      (m.buffer_remaining = 0 ∨
        (m.buffer_remaining < m.buffer_length ∧ hw.status_rxnack = true)) →
      (_i2c_slave_interrupt_handler m hw).2 =
        [.setAckact false, .cmd 2, .intenClr false true false]) ∧
    (m.transfer_direction = .write → m.buffer_remaining = 0 →
      (_i2c_slave_interrupt_handler m hw).2 =
        [.setAckact false, .cmd 2] ++
        (if (m.enabled_callback &&& m.registered_callback).testBit
            (cbBit .err) then [HwAction.fire .err] else []) ∧
      (∀ a d p : Bool,
        HwAction.intenClr a d p ∉ (_i2c_slave_interrupt_handler m hw).2) ∧
      (_i2c_slave_interrupt_handler m hw).1.transfer_direction = .write ∧
      (_i2c_slave_interrupt_handler m hw).1.buffer_remaining = 0 ∧
      (_i2c_slave_interrupt_handler m hw).1.status = .errOverflow ∧
      (∀ hw2 : HwInput, hw2.intflag_amatch = false →
        hw2.intflag_prec = false → hw2.intflag_drdy = true →
        cbTrace (_i2c_slave_interrupt_handler
            (_i2c_slave_interrupt_handler m hw).1 hw2).2 =
          (if (m.enabled_callback &&& m.registered_callback).testBit
              (cbBit .err) then [I2cSlaveCallback.err] else []) ∧
        (_i2c_slave_interrupt_handler
            (_i2c_slave_interrupt_handler m hw).1 hw2).1.status =
          .errOverflow)) := by
  constructor
  · intro hdir hterm
    simp [_i2c_slave_interrupt_handler, drdyHandler, ha, hp, hd, hdir, hterm]
  · intro hdir hrem
    have hres : _i2c_slave_interrupt_handler m hw =
        ({ m with
            buffer_remaining := 0
            buffer_length := 0
            status := .errOverflow },
         [.setAckact false, .cmd 2] ++
         (if (m.enabled_callback &&& m.registered_callback).testBit
            (cbBit .err) then [HwAction.fire .err] else [])) := by
      simp [_i2c_slave_interrupt_handler, drdyHandler, ha, hp, hd, hdir, hrem]
    rw [hres]
    refine ⟨rfl, ?_, hdir, rfl, rfl, ?_⟩
    · intro a d p
      simp
    · intro hw2 h2a h2p h2d
      simp [_i2c_slave_interrupt_handler, drdyHandler, h2a, h2p, h2d, hdir]

/-- Witness for c10_drdyIntenclrAsymmetry on both arms: a
Read-direction early stop and a Write-direction overflow followed by a
second data-ready event. -/
theorem c10_drdy_intenclr_asymmetry_witness :
    (({ mAllOn with transfer_direction := .read } :
        i2c_slave_module).transfer_direction = .read ∧
     (_i2c_slave_interrupt_handler
        { mAllOn with transfer_direction := .read } (mkDrdy 5)).2 =
       [.setAckact false, .cmd 2, .intenClr false true false]) ∧
    (mAllOn.transfer_direction = .write ∧ mAllOn.buffer_remaining = 0 ∧
     (∀ a d p : Bool,
       HwAction.intenClr a d p ∉
         (_i2c_slave_interrupt_handler mAllOn (mkDrdy 5)).2) ∧
     cbTrace (_i2c_slave_interrupt_handler
         (_i2c_slave_interrupt_handler mAllOn (mkDrdy 5)).1 (mkDrdy 6)).2 =
       (if (mAllOn.enabled_callback &&&
             mAllOn.registered_callback).testBit (cbBit .err)
        then [I2cSlaveCallback.err] else [])) :=
  ⟨⟨rfl,
    (c10_drdy_intenclr_asymmetry { mAllOn with transfer_direction := .read }
       (mkDrdy 5) rfl rfl rfl).1 rfl (Or.inl rfl)⟩,
   ⟨rfl, rfl,
    ((c10_drdy_intenclr_asymmetry mAllOn (mkDrdy 5) rfl rfl rfl).2
       rfl rfl).2.1,
    (((c10_drdy_intenclr_asymmetry mAllOn (mkDrdy 5) rfl rfl rfl).2
       rfl rfl).2.2.2.2.2 (mkDrdy 6) rfl rfl rfl).1⟩⟩

/-- The address-match tail never changes the two job counters: it only
touches status, transfer_direction and the hardware. -/
theorem amatchRest_frame (mask : Nat) (hw : HwInput) (m : i2c_slave_module) :
    (amatchRest mask hw m).1.buffer_remaining = m.buffer_remaining ∧
    (amatchRest mask hw m).1.buffer_length = m.buffer_length := by
  simp only [amatchRest]
  split_ifs <;> simp

/-- Every single step — job submission or interrupt — preserves the
invariant that buffer_remaining is at most buffer_length. -/
theorem stepOp_preserves_rem_le_len (m : i2c_slave_module) (op : Op)
    (h : m.buffer_remaining ≤ m.buffer_length) :
    (stepOp m op).1.buffer_remaining ≤ (stepOp m op).1.buffer_length := by
  cases op with
  | submitRead p =>
    simp only [stepOp, i2c_slave_read_packet_job]
    split_ifs <;> simp [h]
  | submitWrite p =>
    simp only [stepOp, i2c_slave_write_packet_job]
    split_ifs <;> simp [h]
  | irq hw =>
    simp only [stepOp, _i2c_slave_interrupt_handler]
    split
    · have hc : (amatchCompleted
            (m.enabled_callback &&& m.registered_callback) m).1.buffer_remaining ≤
          (amatchCompleted
            (m.enabled_callback &&& m.registered_callback) m).1.buffer_length := by
        simp only [amatchCompleted]
        split_ifs <;> simp [h]
      have hf := amatchRest_frame
        (m.enabled_callback &&& m.registered_callback) hw
        (amatchCompleted (m.enabled_callback &&& m.registered_callback) m).1
      rw [hf.1, hf.2]
      exact hc
    · split
      · simp only [stopHandler]
        split_ifs <;> simp [h]
      · split
        · simp only [drdyHandler, _i2c_slave_read, _i2c_slave_write]
          split_ifs <;> simp [h] <;> omega
        · exact h

/-- Running any sequence of operations preserves the invariant that
buffer_remaining is at most buffer_length. -/
theorem runOps_rem_le_len (ops : List Op) : ∀ m : i2c_slave_module,
    m.buffer_remaining ≤ m.buffer_length →
    (runOps m ops).1.buffer_remaining ≤ (runOps m ops).1.buffer_length := by
  induction ops with
  | nil => intro m h; simpa [runOps] using h
  | cons op rest ih =>
    intro m h
    simp only [runOps]
    exact ih _ (stepOp_preserves_rem_le_len m op h)

/-- C7: from an idle session (buffer_remaining zero), every state
reachable through any sequence of job submissions and interrupt
handler invocations satisfies buffer_remaining at most
buffer_length. -/
theorem c7_remaining_le_length_invariant (m : i2c_slave_module)
    (h : m.buffer_remaining = 0) (ops : List Op) :
    (runOps m ops).1.buffer_remaining ≤ (runOps m ops).1.buffer_length :=
  runOps_rem_le_len ops m (by rw [h]; exact Nat.zero_le _)

/-- Operation sequence of a full transaction: submit a three-byte
packet, address match, three data bytes, stop. -/
def demoOps : List Op :=
  [.submitRead ⟨100, 3⟩, .irq (mkAmatch false),
   .irq (mkDrdy 1), .irq (mkDrdy 2), .irq (mkDrdy 3), .irq mkStop]

/-- Witness for c7_remaining_le_length_invariant over a full
transaction from the idle all-callbacks-enabled session. -/
theorem c7_remaining_le_length_invariant_witness :
    mAllOn.buffer_remaining = 0 ∧
    (runOps mAllOn demoOps).1.buffer_remaining ≤
      (runOps mAllOn demoOps).1.buffer_length :=
  ⟨rfl, c7_remaining_le_length_invariant mAllOn rfl demoOps⟩

/-- Session used for the scenario of claim C8: mem holds byte 10 + i
at address i, only WRITE_COMPLETE is registered and enabled. -/
def c8Start : i2c_slave_module :=
  { buffer := 0, mem := fun i => i + 10, buffer_remaining := 0,
    buffer_length := 0, status := .ok, transfer_direction := .write,
    nack_on_address := false,
    registered_callback := 2 ^ cbBit .writeComplete,
    enabled_callback := 2 ^ cbBit .writeComplete }

/-- Operations of the scenario of claim C8: submit a write job of
three bytes at address 100, address match with the DIR bit set
(master read), three data-ready events, stop. -/
def c8Ops : List Op :=
  [.submitWrite ⟨100, 3⟩, .irq (mkAmatch true),
   .irq (mkDrdy 0), .irq (mkDrdy 0), .irq (mkDrdy 0), .irq mkStop]

/-- C8: after submitting a write job with data_length three, the
address phase records direction Read, the three data-ready events
each move one buffer byte out in address order (bytes 110, 111, 112
from addresses 100, 101, 102), and the stop condition fires
WRITE_COMPLETE with status OK and both counters reset to zero. -/
theorem c8_scenario_write_job :
    (runOps c8Start c8Ops).1.status = .ok ∧
    (runOps c8Start c8Ops).1.buffer_remaining = 0 ∧
    (runOps c8Start c8Ops).1.buffer_length = 0 ∧
    (runOps c8Start c8Ops).1.transfer_direction = .read ∧
    cbTrace (runOps c8Start c8Ops).2 = [.writeComplete] ∧
    dataWrites (runOps c8Start c8Ops).2 = [110, 111, 112] := by
  decide

/-- One Write-direction data-ready event in mid-transfer: the incoming
byte lands at the cursor, the cursor advances by one, and
buffer_remaining drops by one; length, status and direction are
untouched. -/
theorem handler_drdy_write_step (m : i2c_slave_module) (b : Nat)
    (hdir : m.transfer_direction = .write)
    (hrem : 0 < m.buffer_remaining)
    (hle : m.buffer_remaining ≤ m.buffer_length) :
    (_i2c_slave_interrupt_handler m (mkDrdy b)).1 =
      { m with
          mem := fun a => if a = m.buffer then b else m.mem a
          buffer := m.buffer + 1
          buffer_remaining := m.buffer_remaining - 1 } := by
  have h0 : ¬ m.buffer_remaining = 0 := by omega
  have h1 : 0 < m.buffer_length := lt_of_lt_of_le hrem hle
  simp [_i2c_slave_interrupt_handler, drdyHandler, _i2c_slave_read, mkDrdy,
    hdir, h0, hrem, h1]

/-- Running a list of Write-direction data-ready events no longer than
the remaining count transfers the bytes one per event in address
order: the cursor advances by the list length, buffer_remaining drops
by the list length, length, status and direction stay put, memory
below the initial cursor is untouched, and byte i of the list ends up
at initial cursor plus i. -/
theorem drdyRun_write_spec (bs : List Nat) : ∀ m : i2c_slave_module,
    m.transfer_direction = .write →
    bs.length ≤ m.buffer_remaining →
    m.buffer_remaining ≤ m.buffer_length →
    (drdyRun m bs).buffer = m.buffer + bs.length ∧
    (drdyRun m bs).buffer_remaining = m.buffer_remaining - bs.length ∧
    (drdyRun m bs).buffer_length = m.buffer_length ∧
    (drdyRun m bs).status = m.status ∧
    (drdyRun m bs).transfer_direction = .write ∧
    (∀ a, a < m.buffer → (drdyRun m bs).mem a = m.mem a) ∧
    (∀ i, i < bs.length → (drdyRun m bs).mem (m.buffer + i) = bs.getD i 0) := by
  induction bs with
  | nil =>
    intro m hdir _ _
    simp [drdyRun, hdir]
  | cons b bs ih =>
    intro m hdir hlen hle
    have hrem : 0 < m.buffer_remaining := by
      simp only [List.length_cons] at hlen
      omega
    have hstep := handler_drdy_write_step m b hdir hrem hle
    simp only [drdyRun, hstep]
    obtain ⟨hb, hr, hl, hs, hd, hmlow, hmbytes⟩ :=
      ih { m with
            mem := fun a => if a = m.buffer then b else m.mem a
            buffer := m.buffer + 1
            buffer_remaining := m.buffer_remaining - 1 }
        hdir
        (by simp only [List.length_cons] at hlen; simp; omega)
        (by simp; omega)
    simp only [List.length_cons]
    refine ⟨by rw [hb]; simp; omega, by rw [hr]; simp; omega,
      by rw [hl], by rw [hs], hd, ?_, ?_⟩
    · intro a halow
      rw [hmlow a (by simp; omega)]
      simp
      omega
    · intro i hi
      match i with
      | 0 =>
        rw [show m.buffer + 0 = m.buffer by omega]
        rw [hmlow m.buffer (by simp)]
        simp
      | Nat.succ j =>
        have hj : j < bs.length := by omega
        have := hmbytes j hj
        simp only [i2c_slave_module.mk.injEq] at this ⊢
        rw [show m.buffer + (j + 1) = m.buffer + 1 + j by omega]
        simpa using this

/-- Idle session with no callbacks, Read direction, used to build the
counterexample run for claim C3. -/
def c3CexStart : i2c_slave_module :=
  { buffer := 0, mem := fun _ => 0, buffer_remaining := 0,
    buffer_length := 0, status := .ok, transfer_direction := .read,
    nack_on_address := false, registered_callback := 0,
    enabled_callback := 0 }

/-- Counterexample run for claim C3: submit a one-byte job, address
match with the DIR bit clear (Write direction), then the single
data-ready event that exhausts the buffer. -/
def c3CexOps : List Op :=
  [.submitRead ⟨100, 1⟩, .irq (mkAmatch false), .irq (mkDrdy 42)]

/-- Counterexample to claim C3 as stated: for an accepted
Write-direction job of size one, at the data-ready event on which
buffer_remaining reaches zero the job is not marked OK — the status
set at submission is still Busy, and only a later stop condition or
a further event changes it. -/
theorem c3_exhaustion_not_marked_ok :
    (runOps c3CexStart c3CexOps).1.transfer_direction = .write ∧
    (runOps c3CexStart c3CexOps).1.buffer_remaining = 0 ∧
    (runOps c3CexStart c3CexOps).1.status = .busy ∧
    (runOps c3CexStart c3CexOps).1.status ≠ .ok := by
  decide

/-- C3 (amended): for an accepted Write-direction job whose
buffer_remaining and buffer_length both equal the number N of incoming
bytes, each of the N data-ready events copies exactly one incoming
byte into the next buffer position in address order — the cursor
advances by exactly one element per event — and decrements
buffer_remaining by one until it reaches zero; at that point the
status is still Busy, the subsequent stop condition marks the job OK
and zeroes the counters, and after exhaustion no further byte is ever
consumed into the buffer (a further Write-direction data-ready event
takes the overflow path without reading DATA). -/
theorem c3_write_direction_transfer (m : i2c_slave_module) (bs : List Nat)
    (hdir : m.transfer_direction = .write)
    (hstat : m.status = .busy)
    (hrem : m.buffer_remaining = bs.length)
    (hlen : m.buffer_length = bs.length)
    (hpos : 0 < bs.length) :
    (∀ k, k ≤ bs.length →
      (drdyRun m (List.take k bs)).buffer = m.buffer + k) ∧
    (∀ i, i < bs.length →
      (drdyRun m bs).mem (m.buffer + i) = bs.getD i 0) ∧
    (drdyRun m bs).buffer_remaining = 0 ∧
    (drdyRun m bs).buffer_length = bs.length ∧
    (drdyRun m bs).status = .busy ∧
    (_i2c_slave_interrupt_handler (drdyRun m bs) mkStop).1.status = .ok ∧
    (_i2c_slave_interrupt_handler (drdyRun m bs) mkStop).1.buffer_remaining
      = 0 ∧
    (∀ b : Nat,
      (_i2c_slave_interrupt_handler (drdyRun m bs) (mkDrdy b)).1.mem =
        (drdyRun m bs).mem ∧
      HwAction.readData ∉
        (_i2c_slave_interrupt_handler (drdyRun m bs) (mkDrdy b)).2) := by
  obtain ⟨hb, hr, hl, hs, hd, hmlow, hmbytes⟩ :=
    drdyRun_write_spec bs m hdir (by omega) (by omega)
  have hsb : (drdyRun m bs).status = .busy := by rw [hs, hstat]
  have hrb : (drdyRun m bs).buffer_remaining = 0 := by omega
  refine ⟨?_, hmbytes, hrb, by omega, hsb, ?_, ?_, ?_⟩
  · intro k hk
    obtain ⟨hb', _⟩ := drdyRun_write_spec (bs.take k) m hdir
      (by simp [List.length_take]; omega) (by omega)
    rw [hb']
    simp [List.length_take]
    omega
  · simp [_i2c_slave_interrupt_handler, stopHandler, mkStop, hsb]
  · simp [_i2c_slave_interrupt_handler, stopHandler, mkStop, hsb]
  · intro b
    constructor
    · simp [_i2c_slave_interrupt_handler, drdyHandler, mkDrdy, hd, hrb]
    · simp [_i2c_slave_interrupt_handler, drdyHandler, mkDrdy, hd, hrb]

/-- Demo session for the amended C3: Busy Write-direction job of two
bytes at address 100, every callback enabled. -/
def c3DemoState : i2c_slave_module :=
  { mAllOn with
      status := .busy
      buffer := 100
      buffer_remaining := 2
      buffer_length := 2 }

/-- Witness for c3_write_direction_transfer on a two-byte job
receiving bytes 7 and 9. -/
theorem c3_write_direction_transfer_witness :
    (c3DemoState.transfer_direction = .write ∧
     c3DemoState.status = .busy ∧
     c3DemoState.buffer_remaining = [7, 9].length ∧
     c3DemoState.buffer_length = [7, 9].length ∧
     0 < [7, 9].length) ∧
    ((drdyRun c3DemoState [7, 9]).buffer_remaining = 0 ∧
     (drdyRun c3DemoState [7, 9]).status = .busy ∧
     (_i2c_slave_interrupt_handler (drdyRun c3DemoState [7, 9])
        mkStop).1.status = .ok) :=
  ⟨⟨rfl, rfl, by decide, by decide, by decide⟩,
   (c3_write_direction_transfer c3DemoState [7, 9] rfl rfl (by decide)
      (by decide) (by decide)).2.2.1,
   (c3_write_direction_transfer c3DemoState [7, 9] rfl rfl (by decide)
      (by decide) (by decide)).2.2.2.2.1,
   (c3_write_direction_transfer c3DemoState [7, 9] rfl rfl (by decide)
      (by decide) (by decide)).2.2.2.2.2.1⟩

end I2cSlave
